import Mathlib

/-!
Verification of the Israeli vehicle lookup relay (`src/server.js`).

The server exposes `GET /api/vehicle/:plateNumber`: it validates the plate
string (length 7–8), strips non-digit characters, issues one upstream GET
with the cleaned plate as query value, and maps the upstream outcome into a
uniform JSON envelope.  We embed the handler as a pure function from the
plate parameter and an upstream oracle to the issued query (if any) and the
HTTP response, then prove the specified properties about it.

Strings are modelled by Lean `String`; `.length` counts characters, which
agrees with JavaScript's `.length` on the ASCII/BMP inputs at issue.
-/

namespace VehicleLookup

/-- `response.data.result` of the upstream payload: `records` may be absent
(the JS code guards `result.records` before reading `.length`). -/
structure UpstreamResult (α : Type) where
  records : Option (List α)
deriving DecidableEq, Repr

/-- `response.data` of a resolved axios call: a `success` flag and an
optional `result`.  `none` at the payload level models a falsy
`response.data`. -/
structure UpstreamPayload (α : Type) where
  success : Bool
  result : Option (UpstreamResult α)
deriving DecidableEq, Repr

/-- `error.response` of a rejected axios call: the upstream HTTP status and
its status text. -/
structure ErrorResponse where
  status : Nat
  statusText : String
deriving DecidableEq, Repr

/-- A rejected axios call, as inspected by the catch block: `error.code`,
`error.response`, truthiness of `error.request`, and `error.message`. -/
structure AxiosError where
  code : Option String
  response : Option ErrorResponse
  request : Bool
  message : String
deriving DecidableEq, Repr

/-- Outcome of the single upstream call: the promise resolves with a payload
(possibly falsy), or rejects with an axios error. -/
inductive UpstreamOutcome (α : Type) where
  | ok (data : Option (UpstreamPayload α))
  | fail (e : AxiosError)
deriving DecidableEq, Repr

/-- The JSON body written by the handler.  Each field is `none` when the
corresponding key is absent from the object literal in the source. -/
structure ResBody (α : Type) where
  success : Option Bool
  data : Option α
  message : Option String
  details : Option String
  error : Option String
deriving DecidableEq, Repr

/-- An HTTP response: status code plus JSON body (`res.json` without
`res.status` uses 200). -/
structure HttpResponse (α : Type) where
  status : Nat
  body : ResBody α
deriving DecidableEq, Repr

/-- One run of the handler: the `q` value of the upstream request if one was
issued, and the response written. -/
structure HandlerRun (α : Type) where
  upstreamCall : Option String
  response : HttpResponse α
deriving DecidableEq, Repr

/-- Fixed 400 message of the validation branch. -/
def invalidPlateMsg : String := "מספר רישוי לא תקין. נדרש 7-8 ספרות"

/-- Fixed not-found message (zero upstream records). -/
def notFoundMsg : String := "לא נמצאו נתונים עבור מספר רישוי זה במאגר"

/-- Fixed message when the upstream payload reports failure. -/
def apiErrorMsg : String := "שגיאה בתגובה מהמאגר הממשלתי"

/-- Fixed message of the 504 timeout branch. -/
def timeoutMsg : String := "חיבור למאגר הממשלתי נכשל (timeout)"

/-- Fixed message of the upstream-HTTP-error branch. -/
def upstreamHttpErrMsg : String := "שגיאה בחיבור למאגר הממשלתי"

/-- Fixed message of the 503 no-response branch. -/
def noResponseMsg : String := "לא התקבלה תגובה מהמאגר הממשלתי"

/-- Fixed message of the catch-all 500 branch. -/
def internalErrMsg : String := "שגיאה פנימית בשרת"

/-- `plateNumber.replace(/[^0-9]/g, '')`: keep exactly the ASCII digits. -/
def cleanPlate (s : String) : String :=
  String.mk (s.data.filter fun c => decide ('0' ≤ c) && decide (c ≤ '9'))

/-- Mapping of a resolved or rejected upstream call to the HTTP response,
the try/catch body of the handler after the axios call. -/
def mapUpstream {α : Type} : UpstreamOutcome α → HttpResponse α
  | .ok d =>
    match d with
    | some p =>
      if p.success then
        match p.result with
        | some r =>
          match r.records with
          | some (v :: _) =>
            ⟨200, ⟨some true, some v, none, none, none⟩⟩
          | some [] =>
            ⟨200, ⟨some false, none, some notFoundMsg, none, none⟩⟩
          | none =>
            ⟨200, ⟨some false, none, some notFoundMsg, none, none⟩⟩
        | none =>
          ⟨200, ⟨some false, none, some notFoundMsg, none, none⟩⟩
      else
        ⟨500, ⟨some false, none, some apiErrorMsg, none, none⟩⟩
    | none =>
      ⟨500, ⟨some false, none, some apiErrorMsg, none, none⟩⟩
  | .fail e =>
    if e.code = some "ECONNABORTED" then
      ⟨504, ⟨some false, none, some timeoutMsg, none, none⟩⟩
    else
      match e.response with
      | some r =>
        ⟨r.status, ⟨some false, none, some upstreamHttpErrMsg, some r.statusText, none⟩⟩
      | none =>
        if e.request then
          ⟨503, ⟨some false, none, some noResponseMsg, none, none⟩⟩
        else
          ⟨500, ⟨some false, none, some internalErrMsg, none, some e.message⟩⟩

/-- The `GET /api/vehicle/:plateNumber` handler.  `plate` is
`req.params.plateNumber` (`none` models an absent parameter, and the empty
string is falsy like in JS); `upstream` gives the outcome of the axios call
as a function of the `q` parameter sent. -/
def handleVehicle {α : Type} (plate : Option String)
    (upstream : String → UpstreamOutcome α) : HandlerRun α :=
  match plate with
  | none =>
    ⟨none, ⟨400, ⟨some false, none, some invalidPlateMsg, none, none⟩⟩⟩
  | some s =>
    if s.isEmpty || decide (s.length < 7) || decide (s.length > 8) then
      ⟨none, ⟨400, ⟨some false, none, some invalidPlateMsg, none, none⟩⟩⟩
    else
      let q := cleanPlate s
      ⟨some q, mapUpstream (upstream q)⟩

/-- The `availableEndpoints` object of the 404 body. -/
structure EndpointList where
  root : String
  health : String
  search : String
deriving DecidableEq, Repr

/-- Body of the catch-all 404 handler. -/
structure NotFoundBody where
  error : String
  message : String
  availableEndpoints : EndpointList
deriving DecidableEq, Repr

/-- The JSON written by the 404 handler for URL `url`. -/
def notFoundBody (url : String) : NotFoundBody :=
  ⟨"Not Found", "Endpoint " ++ url ++ " not found",
    ⟨"/", "/health", "/api/vehicle/:plateNumber"⟩⟩

/-- Does `path` match the route pattern `/api/vehicle/:plateNumber`
(one non-empty, slash-free path segment after the fixed part)? -/
def isVehiclePath (path : String) : Bool :=
  path.startsWith "/api/vehicle/" &&
    !(path.drop 13).isEmpty && !(path.drop 13).contains '/'

/-- A GET response of the whole app, by route. -/
inductive ServerReply (α : Type) where
  | rootInfo
  | healthInfo
  | api (run : HandlerRun α)
  | notFound (status : Nat) (body : NotFoundBody)
deriving DecidableEq, Repr

/-- Routing of a GET request: the three registered routes in registration
order, then the catch-all 404 middleware. -/
def server {α : Type} (path : String)
    (upstream : String → UpstreamOutcome α) : ServerReply α :=
  if path = "/" then .rootInfo
  else if path = "/health" then .healthInfo
  else if isVehiclePath path then
    .api (handleVehicle (some (path.drop 13)) upstream)
  else
    .notFound 404 (notFoundBody path)

/-- Modelled from the spec: the digit-only reduction of the input, "every
character that is not an ASCII digit removed". -/
def digitOnly (s : String) : String :=
  String.mk (s.data.filter Char.isDigit)

/-- A stub upstream that always resolves with a falsy payload. -/
def stubOkNone : String → UpstreamOutcome String := fun _ => .ok none

/-- A stub upstream that resolves successfully with one record, as in the
spec's stubbed-upstream test. -/
def stubFound : String → UpstreamOutcome String :=
  fun _ => .ok (some ⟨true, some ⟨some ["60570703"]⟩⟩)

/-- A stub upstream that resolves successfully with zero records. -/
def stubEmpty : String → UpstreamOutcome String :=
  fun _ => .ok (some ⟨true, some ⟨some []⟩⟩)

/-- A stub upstream that resolves with a payload whose success flag is
false. -/
def stubApiFail : String → UpstreamOutcome String :=
  fun _ => .ok (some ⟨false, none⟩)

/-- A stub upstream that rejects with a connection-abort (timeout) error. -/
def stubTimeout : String → UpstreamOutcome String :=
  fun _ => .fail ⟨some "ECONNABORTED", none, true, "timeout of 15000ms exceeded"⟩

/-- A stub upstream that rejects with an unexpected error carrying neither
a response nor a request. -/
def stubUnexpected : String → UpstreamOutcome String :=
  fun _ => .fail ⟨none, none, false, "boom"⟩

/-- The two regex characters `[0-9]` and Lean's ASCII-digit test agree, so
`cleanPlate` is the `Char.isDigit` filter. -/
theorem cleanPlate_eq_digitOnly : @cleanPlate = @digitOnly := by
  funext s
  rfl

/-- Unfolding of the handler on an input that passes validation. -/
theorem handleVehicle_valid {α : Type} (s : String)
    (upstream : String → UpstreamOutcome α)
    (h7 : 7 ≤ s.length) (h8 : s.length ≤ 8) :
    handleVehicle (some s) upstream =
      ⟨some (cleanPlate s), mapUpstream (upstream (cleanPlate s))⟩ := by
  have hne : s.isEmpty = false := by
    rw [Bool.eq_false_iff]
    intro h
    rw [String.isEmpty_iff] at h
    subst h
    simp at h7
  unfold handleVehicle
  simp [hne, Nat.not_lt.mpr h7, Nat.not_lt.mpr h8]

/-- C1 (counterexample): the input "abcdefg" has length 7, so validation
accepts it, yet its digit-only normalization is empty and the handler still
issues the upstream request with the empty query value — the response is the
upstream-mapping branch (here 500), not the 400 rejection. -/
theorem c1_empty_query_counterexample :
    (handleVehicle (some "abcdefg") stubOkNone).upstreamCall = some "" ∧
    (handleVehicle (some "abcdefg") stubOkNone).response.status = 500 := by
  exact ⟨rfl, rfl⟩

/-- C1 (amended): for every plate input accepted by validation the handler
always proceeds to the upstream call, whose query value is the digit-only
normalization of the input; that value is non-empty if and only if the input
contains at least one ASCII digit (so it may be empty). -/
theorem c1_amended_upstream_query {α : Type} (s : String)
    (upstream : String → UpstreamOutcome α)
    (h7 : 7 ≤ s.length) (h8 : s.length ≤ 8) :
    (handleVehicle (some s) upstream).upstreamCall = some (cleanPlate s) ∧
    (cleanPlate s ≠ "" ↔ ∃ c ∈ s.data, c.isDigit = true) := by
  refine ⟨by rw [handleVehicle_valid s upstream h7 h8], ?_⟩
  rw [cleanPlate_eq_digitOnly]
  unfold digitOnly
  rw [Ne, String.ext_iff]
  show ¬(List.filter _ s.data = ("" : String).data) ↔ _
  rw [show ("" : String).data = [] from rfl, ← not_iff_not, not_not, not_exists]
  rw [List.filter_eq_nil_iff]
  constructor
  · intro h c
    simp only [not_and]
    intro hc
    exact h c hc
  · intro h c hc
    have := h c
    simp only [not_and] at this
    exact this hc

/-- C1 (witness for the amended theorem): the valid input "60570703"
proceeds upstream with query "60570703", which is non-empty. -/
theorem c1_amended_witness :
    (handleVehicle (some "60570703") stubOkNone).upstreamCall =
        some (cleanPlate "60570703") ∧
    (cleanPlate "60570703" ≠ "" ↔ ∃ c ∈ "60570703".data, c.isDigit = true) :=
  c1_amended_upstream_query "60570703" stubOkNone (by decide) (by decide)

/-- C2: when the plate parameter is absent, or its length is below 7 or
above 8, the handler issues no upstream call and responds 400 with
`success = false` and the fixed validation message (and no other field). -/
theorem c2_invalid_input_rejected {α : Type} (plate : Option String)
    (upstream : String → UpstreamOutcome α)
    (h : plate = none ∨ ∃ s, plate = some s ∧ (s.length < 7 ∨ 8 < s.length)) :
    handleVehicle plate upstream =
      ⟨none, ⟨400, ⟨some false, none, some invalidPlateMsg, none, none⟩⟩⟩ := by
  rcases h with h | ⟨s, h, hs⟩
  · subst h; rfl
  · subst h
    unfold handleVehicle
    rcases hs with hs | hs <;> simp [hs]

/-- C2 (witness): the five-character input "12345" is rejected with 400,
the fixed message, and no upstream call. -/
theorem c2_witness :
    handleVehicle (some "12345") stubOkNone =
      ⟨none, ⟨400, ⟨some false, none, some invalidPlateMsg, none, none⟩⟩⟩ :=
  c2_invalid_input_rejected (some "12345") stubOkNone
    (Or.inr ⟨"12345", rfl, Or.inl (by decide)⟩)

/-- C3: for every input of valid length, the query value sent upstream is
the input with every character that is not an ASCII digit removed. -/
theorem c3_query_is_digit_reduction {α : Type} (s : String)
    (upstream : String → UpstreamOutcome α)
    (h7 : 7 ≤ s.length) (h8 : s.length ≤ 8) :
    (handleVehicle (some s) upstream).upstreamCall = some (digitOnly s) := by
  rw [handleVehicle_valid s upstream h7 h8, cleanPlate_eq_digitOnly]

/-- C3 (witness): the input "605-7070" of length 8 is sent upstream as its
digit-only reduction "6057070". -/
theorem c3_witness :
    (handleVehicle (some "605-7070") stubOkNone).upstreamCall =
      some (digitOnly "605-7070") :=
  c3_query_is_digit_reduction "605-7070" stubOkNone (by decide) (by decide)

/-- C4: for a valid-length input, when the upstream call resolves with a
successful payload holding at least one record, the handler responds 200
with `success = true` and `data` equal to the first record (and no message,
details or error). -/
theorem c4_found_first_record {α : Type} (s : String)
    (upstream : String → UpstreamOutcome α)
    (h7 : 7 ≤ s.length) (h8 : s.length ≤ 8)
    (p : UpstreamPayload α) (r : UpstreamResult α) (v : α) (rest : List α)
    (hup : upstream (cleanPlate s) = .ok (some p))
    (hsucc : p.success = true)
    (hres : p.result = some r)
    (hrec : r.records = some (v :: rest)) :
    (handleVehicle (some s) upstream).response =
      ⟨200, ⟨some true, some v, none, none, none⟩⟩ := by
  rw [handleVehicle_valid s upstream h7 h8]
  show mapUpstream (upstream (cleanPlate s)) = _
  rw [hup]
  simp [mapUpstream, hsucc, hres, hrec]

/-- C4 (witness): the spec's stubbed upstream returns one record
"60570703"; the handler answers 200 with that record as `data`. -/
theorem c4_witness :
    (handleVehicle (some "60570703") stubFound).response =
      ⟨200, ⟨some true, some "60570703", none, none, none⟩⟩ :=
  c4_found_first_record "60570703" stubFound (by decide) (by decide)
    ⟨true, some ⟨some ["60570703"]⟩⟩ ⟨some ["60570703"]⟩ "60570703" []
    rfl rfl rfl rfl

/-- C5: for a valid-length input, when the upstream call resolves with a
successful payload holding zero records, the handler responds 200 with
`success = false` and the not-found message, and no `data` field. -/
theorem c5_not_found {α : Type} (s : String)
    (upstream : String → UpstreamOutcome α)
    (h7 : 7 ≤ s.length) (h8 : s.length ≤ 8)
    (p : UpstreamPayload α) (r : UpstreamResult α)
    (hup : upstream (cleanPlate s) = .ok (some p))
    (hsucc : p.success = true)
    (hres : p.result = some r)
    (hrec : r.records = some []) :
    (handleVehicle (some s) upstream).response =
      ⟨200, ⟨some false, none, some notFoundMsg, none, none⟩⟩ := by
  rw [handleVehicle_valid s upstream h7 h8]
  show mapUpstream (upstream (cleanPlate s)) = _
  rw [hup]
  simp [mapUpstream, hsucc, hres, hrec]

/-- C5 (witness): a stubbed upstream returning zero records yields 200 with
`success = false` and the not-found message. -/
theorem c5_witness :
    (handleVehicle (some "60570703") stubEmpty).response =
      ⟨200, ⟨some false, none, some notFoundMsg, none, none⟩⟩ :=
  c5_not_found "60570703" stubEmpty (by decide) (by decide)
    ⟨true, some ⟨some []⟩⟩ ⟨some []⟩ rfl rfl rfl rfl

/-- C6: for a valid-length input, when the upstream call resolves but the
payload's success flag is false, the handler responds 500 with
`success = false` and the API-error message. -/
theorem c6_api_failure {α : Type} (s : String)
    (upstream : String → UpstreamOutcome α)
    (h7 : 7 ≤ s.length) (h8 : s.length ≤ 8)
    (p : UpstreamPayload α)
    (hup : upstream (cleanPlate s) = .ok (some p))
    (hsucc : p.success = false) :
    (handleVehicle (some s) upstream).response =
      ⟨500, ⟨some false, none, some apiErrorMsg, none, none⟩⟩ := by
  rw [handleVehicle_valid s upstream h7 h8]
  show mapUpstream (upstream (cleanPlate s)) = _
  rw [hup]
  simp [mapUpstream, hsucc]

/-- C6 (witness): a stubbed upstream answering `success:false` yields 500
with the API-error message. -/
theorem c6_witness :
    (handleVehicle (some "60570703") stubApiFail).response =
      ⟨500, ⟨some false, none, some apiErrorMsg, none, none⟩⟩ :=
  c6_api_failure "60570703" stubApiFail (by decide) (by decide)
    ⟨false, none⟩ rfl rfl

/-- C7: for a valid-length input whose upstream call rejects, the handler
maps the error by the catch block's cascade: connection-abort → 504;
otherwise an upstream HTTP response → that same status with its status text
in `details`; otherwise a sent-but-unanswered request → 503; otherwise →
500 with the error message in `error`.  Every such response carries
`success = false` and a message. -/
theorem c7_network_failure_mapping {α : Type} (s : String)
    (upstream : String → UpstreamOutcome α)
    (h7 : 7 ≤ s.length) (h8 : s.length ≤ 8)
    (e : AxiosError)
    (hup : upstream (cleanPlate s) = .fail e) :
    ((handleVehicle (some s) upstream).response.body.success = some false ∧
      ((handleVehicle (some s) upstream).response.body.message).isSome = true) ∧
    (e.code = some "ECONNABORTED" →
      (handleVehicle (some s) upstream).response =
        ⟨504, ⟨some false, none, some timeoutMsg, none, none⟩⟩) ∧
    (e.code ≠ some "ECONNABORTED" → ∀ r : ErrorResponse, e.response = some r →
      (handleVehicle (some s) upstream).response =
        ⟨r.status, ⟨some false, none, some upstreamHttpErrMsg, some r.statusText, none⟩⟩) ∧
    (e.code ≠ some "ECONNABORTED" → e.response = none → e.request = true →
      (handleVehicle (some s) upstream).response =
        ⟨503, ⟨some false, none, some noResponseMsg, none, none⟩⟩) ∧
    (e.code ≠ some "ECONNABORTED" → e.response = none → e.request = false →
      (handleVehicle (some s) upstream).response =
        ⟨500, ⟨some false, none, some internalErrMsg, none, some e.message⟩⟩) := by
  have key : handleVehicle (some s) upstream =
      ⟨some (cleanPlate s), mapUpstream (.fail e)⟩ := by
    rw [handleVehicle_valid s upstream h7 h8, hup]
  rw [key]
  obtain ⟨code, resp, req, msg⟩ := e
  by_cases hc : code = some "ECONNABORTED"
  · subst hc
    refine ⟨⟨?_, ?_⟩, ?_, ?_, ?_, ?_⟩
    · simp [mapUpstream]
    · simp [mapUpstream]
    · intro _; simp [mapUpstream]
    · intro h; exact absurd rfl h
    · intro h; exact absurd rfl h
    · intro h; exact absurd rfl h
  · rcases resp with _ | ⟨st, sttext⟩
    · cases req
      · refine ⟨⟨?_, ?_⟩, ?_, ?_, ?_, ?_⟩
        · simp [mapUpstream, hc]
        · simp [mapUpstream, hc]
        · intro h; exact absurd h hc
        · intro _ r hr; cases hr
        · intro _ _ h; cases h
        · intro _ _ _; simp [mapUpstream, hc]
      · refine ⟨⟨?_, ?_⟩, ?_, ?_, ?_, ?_⟩
        · simp [mapUpstream, hc]
        · simp [mapUpstream, hc]
        · intro h; exact absurd h hc
        · intro _ r hr; cases hr
        · intro _ _ _; simp [mapUpstream, hc]
        · intro _ _ h; cases h
    · refine ⟨⟨?_, ?_⟩, ?_, ?_, ?_, ?_⟩
      · simp [mapUpstream, hc]
      · simp [mapUpstream, hc]
      · intro h; exact absurd h hc
      · intro _ r hr
        injection hr with h2
        subst h2
        simp [mapUpstream, hc]
      · intro _ h; cases h
      · intro _ h; cases h

/-- C7 (witness): a stubbed upstream rejecting with `ECONNABORTED` yields
504 with `success = false` and the timeout message. -/
theorem c7_witness :
    ((handleVehicle (some "60570703") stubTimeout).response.body.success = some false ∧
      ((handleVehicle (some "60570703") stubTimeout).response.body.message).isSome = true) ∧
    (handleVehicle (some "60570703") stubTimeout).response =
      ⟨504, ⟨some false, none, some timeoutMsg, none, none⟩⟩ := by
  have h := c7_network_failure_mapping "60570703" stubTimeout (by decide) (by decide)
    ⟨some "ECONNABORTED", none, true, "timeout of 15000ms exceeded"⟩ rfl
  exact ⟨h.1, h.2.1 rfl⟩

/-- Every upstream-mapped response has a boolean `success` and exactly one
of `data` and `message`. -/
theorem mapUpstream_shape {α : Type} (o : UpstreamOutcome α) :
    ((mapUpstream o).body.success).isSome = true ∧
    ((mapUpstream o).body.data).isSome = !((mapUpstream o).body.message).isSome := by
  rcases o with d | e
  · rcases d with _ | ⟨succ, res⟩
    · simp [mapUpstream]
    · cases succ
      · simp [mapUpstream]
      · rcases res with _ | ⟨recs⟩
        · simp [mapUpstream]
        · rcases recs with _ | (_ | ⟨v, rest⟩) <;> simp [mapUpstream]
  · obtain ⟨code, resp, req, msg⟩ := e
    by_cases hc : code = some "ECONNABORTED"
    · simp [mapUpstream, hc]
    · rcases resp with _ | ⟨st, sttext⟩
      · cases req <;> simp [mapUpstream, hc]
      · simp [mapUpstream, hc]

/-- A resolved upstream call never populates `details` or `error`. -/
theorem mapUpstream_ok_fields {α : Type} (d : Option (UpstreamPayload α)) :
    (mapUpstream (.ok d)).body.details = none ∧
    (mapUpstream (.ok d)).body.error = none := by
  rcases d with _ | ⟨succ, res⟩
  · simp [mapUpstream]
  · cases succ
    · simp [mapUpstream]
    · rcases res with _ | ⟨recs⟩
      · simp [mapUpstream]
      · rcases recs with _ | (_ | ⟨v, rest⟩) <;> simp [mapUpstream]

/-- On a rejected upstream call, `details` is populated only in the
upstream-HTTP-response branch and `error` only in the catch-all branch. -/
theorem mapUpstream_fail_fields {α : Type} (e : AxiosError) :
    ((mapUpstream (UpstreamOutcome.fail e) : HttpResponse α).body.details.isSome = true →
      e.code ≠ some "ECONNABORTED" ∧ ∃ r, e.response = some r ∧
        (mapUpstream (UpstreamOutcome.fail e) : HttpResponse α) =
          ⟨r.status, ⟨some false, none, some upstreamHttpErrMsg, some r.statusText, none⟩⟩) ∧
    ((mapUpstream (UpstreamOutcome.fail e) : HttpResponse α).body.error.isSome = true →
      e.code ≠ some "ECONNABORTED" ∧ e.response = none ∧ e.request = false ∧
        (mapUpstream (UpstreamOutcome.fail e) : HttpResponse α) =
          ⟨500, ⟨some false, none, some internalErrMsg, none, some e.message⟩⟩) := by
  obtain ⟨code, resp, req, msg⟩ := e
  by_cases hc : code = some "ECONNABORTED"
  · subst hc
    constructor
    · intro h; simp [mapUpstream] at h
    · intro h; simp [mapUpstream] at h
  · rcases resp with _ | ⟨st, sttext⟩
    · cases req
      · constructor
        · intro h; simp [mapUpstream, hc] at h
        · intro _
          exact ⟨hc, rfl, rfl, by simp [mapUpstream, hc]⟩
      · constructor
        · intro h; simp [mapUpstream, hc] at h
        · intro h; simp [mapUpstream, hc] at h
    · constructor
      · intro _
        exact ⟨hc, ⟨st, sttext⟩, rfl, by simp [mapUpstream, hc]⟩
      · intro h; simp [mapUpstream, hc] at h

/-- C8: every response of the lookup handler, on every branch, carries a
boolean `success` field and populates exactly one of `data` and `message`. -/
theorem c8_envelope_shape {α : Type} (plate : Option String)
    (upstream : String → UpstreamOutcome α) :
    (((handleVehicle plate upstream).response.body.success).isSome = true) ∧
    (((handleVehicle plate upstream).response.body.data).isSome =
      !((handleVehicle plate upstream).response.body.message).isSome) := by
  cases plate with
  | none => exact ⟨rfl, rfl⟩
  | some s =>
    simp only [handleVehicle]
    by_cases hv : (s.isEmpty || decide (s.length < 7) || decide (s.length > 8)) = true
    · rw [if_pos hv]
      exact ⟨rfl, rfl⟩
    · rw [if_neg hv]
      exact mapUpstream_shape (upstream (cleanPlate s))

/-- C8 (instantiation): the shape invariant at a concrete request. -/
theorem c8_witness :
    (((handleVehicle (some "60570703") stubFound).response.body.success).isSome = true) ∧
    (((handleVehicle (some "60570703") stubFound).response.body.data).isSome =
      !((handleVehicle (some "60570703") stubFound).response.body.message).isSome) :=
  c8_envelope_shape (some "60570703") stubFound

/-- C9: a request whose path is none of the three registered routes falls
through to the 404 middleware, whose body lists exactly the root, health
and search endpoints. -/
theorem c9_unknown_path_404 {α : Type} (path : String)
    (upstream : String → UpstreamOutcome α)
    (h1 : path ≠ "/") (h2 : path ≠ "/health") (h3 : isVehiclePath path = false) :
    server path upstream = .notFound 404 (notFoundBody path) ∧
    (notFoundBody path).availableEndpoints =
      ⟨"/", "/health", "/api/vehicle/:plateNumber"⟩ := by
  refine ⟨?_, rfl⟩
  unfold server
  rw [if_neg h1, if_neg h2, if_neg (by simp [h3])]

/-- C9 (witness): the undefined path "/api/cars" gets the 404 body listing
the three endpoints. -/
theorem c9_witness :
    server "/api/cars" stubOkNone = .notFound 404 (notFoundBody "/api/cars") ∧
    (notFoundBody "/api/cars").availableEndpoints =
      ⟨"/", "/health", "/api/vehicle/:plateNumber"⟩ :=
  c9_unknown_path_404 "/api/cars" stubOkNone (by decide) (by decide) (by decide)

/-- Unfolding of the handler when the validation condition fires. -/
theorem handleVehicle_not_valid {α : Type} (s : String)
    (upstream : String → UpstreamOutcome α)
    (hv : (s.isEmpty || decide (s.length < 7) || decide (s.length > 8)) = true) :
    handleVehicle (some s) upstream =
      ⟨none, ⟨400, ⟨some false, none, some invalidPlateMsg, none, none⟩⟩⟩ := by
  simp only [handleVehicle]
  rw [if_pos hv]

/-- Unfolding of the handler when the validation condition does not fire. -/
theorem handleVehicle_pass {α : Type} (s : String)
    (upstream : String → UpstreamOutcome α)
    (hv : ¬((s.isEmpty || decide (s.length < 7) || decide (s.length > 8)) = true)) :
    handleVehicle (some s) upstream =
      ⟨some (cleanPlate s), mapUpstream (upstream (cleanPlate s))⟩ := by
  simp only [handleVehicle]
  rw [if_neg hv]

/-- A stub upstream that rejects with an HTTP 404 from the upstream API. -/
def stubHttpErr : String → UpstreamOutcome String :=
  fun _ => .fail ⟨none, some ⟨404, "Not Found"⟩, true, "Request failed with status code 404"⟩

/-- C10: `details` is populated only when the rejected upstream call carried
an HTTP response (and then the handler relays its status and status text),
and `error` is populated only in the final catch-all branch; every other
branch populates neither field. -/
theorem c10_optional_fields {α : Type} (plate : Option String)
    (upstream : String → UpstreamOutcome α) :
    (((handleVehicle plate upstream).response.body.details).isSome = true →
      ∃ s e r, plate = some s ∧ upstream (cleanPlate s) = .fail e ∧
        e.code ≠ some "ECONNABORTED" ∧ e.response = some r ∧
        (handleVehicle plate upstream).response =
          ⟨r.status, ⟨some false, none, some upstreamHttpErrMsg, some r.statusText, none⟩⟩) ∧
    (((handleVehicle plate upstream).response.body.error).isSome = true →
      ∃ s e, plate = some s ∧ upstream (cleanPlate s) = .fail e ∧
        e.code ≠ some "ECONNABORTED" ∧ e.response = none ∧ e.request = false ∧
        (handleVehicle plate upstream).response =
          ⟨500, ⟨some false, none, some internalErrMsg, none, some e.message⟩⟩) := by
  cases plate with
  | none =>
    constructor
    · intro h; simp [handleVehicle] at h
    · intro h; simp [handleVehicle] at h
  | some s =>
    by_cases hv : (s.isEmpty || decide (s.length < 7) || decide (s.length > 8)) = true
    · rw [handleVehicle_not_valid s upstream hv]
      constructor
      · intro h; simp at h
      · intro h; simp at h
    · have key := handleVehicle_pass s upstream hv
      cases ho : upstream (cleanPlate s) with
      | ok d =>
        rw [ho] at key
        have hresp : (handleVehicle (some s) upstream).response = mapUpstream (.ok d) := by
          rw [key]
        constructor
        · intro h
          rw [hresp, (mapUpstream_ok_fields d).1] at h
          simp at h
        · intro h
          rw [hresp, (mapUpstream_ok_fields d).2] at h
          simp at h
      | fail e =>
        rw [ho] at key
        have hresp : (handleVehicle (some s) upstream).response = mapUpstream (.fail e) := by
          rw [key]
        constructor
        · intro h
          rw [hresp] at h
          obtain ⟨hc, r, hr, heq⟩ := (@mapUpstream_fail_fields α e).1 h
          exact ⟨s, e, r, rfl, ho, hc, hr, by rw [hresp, heq]⟩
        · intro h
          rw [hresp] at h
          obtain ⟨hc, hr, hq, heq⟩ := (@mapUpstream_fail_fields α e).2 h
          exact ⟨s, e, rfl, ho, hc, hr, hq, by rw [hresp, heq]⟩

/-- C10 (instantiation): at a concrete request with an upstream HTTP 404
rejection, the only-in-branch property holds. -/
theorem c10_witness :
    (((handleVehicle (some "60570703") stubHttpErr).response.body.details).isSome = true →
      ∃ s e r, (some "60570703" : Option String) = some s ∧
        stubHttpErr (cleanPlate s) = .fail e ∧
        e.code ≠ some "ECONNABORTED" ∧ e.response = some r ∧
        (handleVehicle (some "60570703") stubHttpErr).response =
          ⟨r.status, ⟨some false, none, some upstreamHttpErrMsg, some r.statusText, none⟩⟩) ∧
    (((handleVehicle (some "60570703") stubHttpErr).response.body.error).isSome = true →
      ∃ s e, (some "60570703" : Option String) = some s ∧
        stubHttpErr (cleanPlate s) = .fail e ∧
        e.code ≠ some "ECONNABORTED" ∧ e.response = none ∧ e.request = false ∧
        (handleVehicle (some "60570703") stubHttpErr).response =
          ⟨500, ⟨some false, none, some internalErrMsg, none, some e.message⟩⟩) :=
  c10_optional_fields (some "60570703") stubHttpErr

end VehicleLookup
